import Mathlib

/-!
Verification of the camera auto-fit routine and UI dispatch logic of a
browser-based 3D model viewer (`src/components/ModelViewer.tsx`).

The viewer delegates rendering to three.js; the application code consists of
three load components (OBJModel, FBXModel, GLTFModel) that each run the same
"fit camera to bounding box" computation, a file-extension dispatcher
(`getModelType`), a skeleton-overlay effect for FBX models, and conditional
rendering of option widgets.  JavaScript numbers are modelled as real numbers;
the parts of three.js the routine calls (Box3, Vec3, PerspectiveCamera)
are modelled from their documented semantics.
-/

/--`THREE.Vector3` (named Vec3 here to avoid clashing with the library): a triple of coordinates. -/
structure Vec3 where
  x : ℝ
  y : ℝ
  z : ℝ

instance : Add Vec3 := ⟨fun a b => ⟨a.x + b.x, a.y + b.y, a.z + b.z⟩⟩

instance : Neg Vec3 := ⟨fun a => ⟨-a.x, -a.y, -a.z⟩⟩

theorem Vec3.add_def (a b : Vec3) :
    a + b = ⟨a.x + b.x, a.y + b.y, a.z + b.z⟩ := rfl

theorem Vec3.neg_def (a : Vec3) : -a = ⟨-a.x, -a.y, -a.z⟩ := rfl

/-- three.js `Box3`: an axis-aligned box, either empty (the fresh
`new THREE.Box3()`, whose min is +∞ and max is −∞) or given by its min and
max corners. -/
inductive Box3 where
  | empty : Box3
  | box (min max : Vec3) : Box3

/-- `Box3.expandByPoint`: grow the box to contain a point. -/
noncomputable def Box3.expandByPoint : Box3 → Vec3 → Box3
  | .empty, p => .box p p
  | .box mn mx, p =>
      .box ⟨min mn.x p.x, min mn.y p.y, min mn.z p.z⟩
           ⟨max mx.x p.x, max mx.y p.y, max mx.z p.z⟩

/-- `Box3.setFromPoints`: the axis-aligned bounding box of a list of points. -/
noncomputable def Box3.setFromPoints (ps : List Vec3) : Box3 :=
  ps.foldl Box3.expandByPoint .empty

/-- `Box3.getSize`: max − min componentwise, and (0,0,0) for an empty box. -/
noncomputable def Box3.getSize : Box3 → Vec3
  | .empty => ⟨0, 0, 0⟩
  | .box mn mx => ⟨mx.x - mn.x, mx.y - mn.y, mx.z - mn.z⟩

/-- `Box3.getCenter`: (min + max) · 0.5 componentwise, and (0,0,0) for an
empty box. -/
noncomputable def Box3.getCenter : Box3 → Vec3
  | .empty => ⟨0, 0, 0⟩
  | .box mn mx => ⟨(mn.x + mx.x) * 0.5, (mn.y + mx.y) * 0.5, (mn.z + mx.z) * 0.5⟩

/-- A material as the viewer distinguishes them: either a
`MeshStandardMaterial` created with a colour, roughness and metalness, or a
material coming from a loaded MTL library. -/
inductive Material where
  | meshStandardMaterial (color : Nat) (roughness metalness : ℚ) : Material
  | fromMtlLibrary (name : String) : Material
deriving DecidableEq

/-- A mesh node of a loaded object graph: its geometry points (in the
coordinates of the root of the object), whether it carries a skeleton, and its
material. -/
structure Mesh where
  points : List Vec3
  hasSkeleton : Bool
  material : Material

/-- A loaded object graph (`THREE.Group` / glTF scene): the position of the root
and the meshes found by `traverse`.  The loaders return graphs whose child
transforms are the identity, so the root position is the only transform. -/
structure Object3D where
  position : Vec3
  meshes : List Mesh

/-- The geometry points of all meshes of an object, in root coordinates. -/
def Object3D.meshPoints (o : Object3D) : List Vec3 :=
  o.meshes.flatMap (fun m => m.points)

/-- The world-space geometry points of an object: each point translated by
the root position. -/
noncomputable def Object3D.worldPoints (o : Object3D) : List Vec3 :=
  o.meshPoints.map (fun p => p + o.position)

/-- `Box3.setFromObject`: the world-space axis-aligned bounding box of an
object graph. -/
noncomputable def Box3.setFromObject (o : Object3D) : Box3 :=
  Box3.setFromPoints o.worldPoints

/-- A 4×4 matrix, written out entry by entry (row i, column j). -/
structure Matrix4 where
  m00 : ℝ
  m01 : ℝ
  m02 : ℝ
  m03 : ℝ
  m10 : ℝ
  m11 : ℝ
  m12 : ℝ
  m13 : ℝ
  m20 : ℝ
  m21 : ℝ
  m22 : ℝ
  m23 : ℝ
  m30 : ℝ
  m31 : ℝ
  m32 : ℝ
  m33 : ℝ

/-- `Matrix4.makePerspective` from three.js: the WebGL perspective projection
matrix for a frustum. -/
noncomputable def Matrix4.makePerspective (left right top bottom near far : ℝ) : Matrix4 :=
  let x := 2 * near / (right - left)
  let y := 2 * near / (top - bottom)
  let a := (right + left) / (right - left)
  let b := (top + bottom) / (top - bottom)
  let c := -(far + near) / (far - near)
  let d := -2 * far * near / (far - near)
  { m00 := x, m01 := 0, m02 := a, m03 := 0
    m10 := 0, m11 := y, m12 := b, m13 := 0
    m20 := 0, m21 := 0, m22 := c, m23 := d
    m30 := 0, m31 := 0, m32 := -1, m33 := 0 }

/-- The projection matrix `PerspectiveCamera.updateProjectionMatrix` computes
from a vertical field of view in degrees, an aspect ratio and the near/far
planes (zoom and view offset are never used by the viewer and are omitted). -/
noncomputable def perspectiveProjectionOf (fov aspect near far : ℝ) : Matrix4 :=
  let top := near * Real.tan (0.5 * fov * Real.pi / 180)
  let height := 2 * top
  let width := aspect * height
  let left := -0.5 * width
  Matrix4.makePerspective left (left + width) top (top - height) near far

/-- The camera state the fit routine reads and writes.  `isPerspective`
records whether the camera is a `THREE.PerspectiveCamera` (the
`instanceof` test in the code); `fov` is in degrees as in three.js. -/
structure Camera where
  position : Vec3
  isPerspective : Bool
  fov : ℝ
  aspect : ℝ
  near : ℝ
  far : ℝ
  projectionMatrix : Matrix4

/-- `camera.updateProjectionMatrix()`: recompute the projection matrix from
the current fov of the camera, aspect and near/far planes. -/
noncomputable def Camera.updateProjectionMatrix (c : Camera) : Camera :=
  { c with projectionMatrix := perspectiveProjectionOf c.fov c.aspect c.near c.far }

/-- The body of the OBJ load callback after material resolution
(`ModelViewer.tsx` lines 69–96): compute the bounding box, move the object
position to minus the box centre, and, when the camera is a perspective
camera, place it at distance `|maxDim / sin(fov/2)| · 1.5` on the z axis,
set near/far and recompute the projection matrix. -/
noncomputable def fitOBJ (obj : Object3D) (camera : Camera) : Object3D × Camera :=
  let box := Box3.setFromObject obj
  let size := box.getSize
  let center := box.getCenter
  let obj := { obj with position := ⟨-center.x, -center.y, -center.z⟩ }
  let maxDim := max size.x (max size.y size.z)
  if camera.isPerspective then
    let fov := camera.fov * (Real.pi / 180)
    let cameraZ := |maxDim / Real.sin (fov / 2)|
    let cameraZ := cameraZ * 1.5
    let camera := { camera with position := { camera.position with z := cameraZ } }
    let minZ := (0.1 : ℝ)
    let maxZ := cameraZ * 10
    let camera := { camera with near := minZ, far := maxZ }
    (obj, camera.updateProjectionMatrix)
  else
    (obj, camera)

/-- The body of the FBX fit effect (`ModelViewer.tsx` lines 157–185),
transcribed on its own: it is the same computation as the OBJ path. -/
noncomputable def fitFBX (fbx : Object3D) (camera : Camera) : Object3D × Camera :=
  let box := Box3.setFromObject fbx
  let size := box.getSize
  let center := box.getCenter
  let fbx := { fbx with position := ⟨-center.x, -center.y, -center.z⟩ }
  let maxDim := max size.x (max size.y size.z)
  if camera.isPerspective then
    let fov := camera.fov * (Real.pi / 180)
    let cameraZ := |maxDim / Real.sin (fov / 2)|
    let cameraZ := cameraZ * 1.5
    let camera := { camera with position := { camera.position with z := cameraZ } }
    let minZ := (0.1 : ℝ)
    let maxZ := cameraZ * 10
    let camera := { camera with near := minZ, far := maxZ }
    (fbx, camera.updateProjectionMatrix)
  else
    (fbx, camera)

/-- The body of the GLTF fit effect (`ModelViewer.tsx` lines 237–265),
transcribed on its own: it is the same computation as the OBJ path. -/
noncomputable def fitGLTF (model : Object3D) (camera : Camera) : Object3D × Camera :=
  let box := Box3.setFromObject model
  let size := box.getSize
  let center := box.getCenter
  let model := { model with position := ⟨-center.x, -center.y, -center.z⟩ }
  let maxDim := max size.x (max size.y size.z)
  if camera.isPerspective then
    let fov := camera.fov * (Real.pi / 180)
    let cameraZ := |maxDim / Real.sin (fov / 2)|
    let cameraZ := cameraZ * 1.5
    let camera := { camera with position := { camera.position with z := cameraZ } }
    let minZ := (0.1 : ℝ)
    let maxZ := cameraZ * 10
    let camera := { camera with near := minZ, far := maxZ }
    (model, camera.updateProjectionMatrix)
  else
    (model, camera)

/-- Well-formedness of a box: a nonempty box has min ≤ max componentwise. -/
def Box3.Wf : Box3 → Prop
  | .empty => True
  | .box mn mx => mn.x ≤ mx.x ∧ mn.y ≤ mx.y ∧ mn.z ≤ mx.z

theorem Box3.wf_expandByPoint {b : Box3} (p : Vec3) (h : b.Wf) :
    (b.expandByPoint p).Wf := by
  cases b with
  | empty => exact ⟨le_refl _, le_refl _, le_refl _⟩
  | box mn mx =>
      exact ⟨le_trans (min_le_right _ _) (le_max_right _ _),
             le_trans (min_le_right _ _) (le_max_right _ _),
             le_trans (min_le_right _ _) (le_max_right _ _)⟩

theorem Box3.wf_foldl (ps : List Vec3) :
    ∀ b : Box3, b.Wf → (ps.foldl Box3.expandByPoint b).Wf := by
  induction ps with
  | nil => exact fun b h => h
  | cons p ps ih => exact fun b h => ih _ (Box3.wf_expandByPoint p h)

theorem Box3.wf_setFromPoints (ps : List Vec3) : (Box3.setFromPoints ps).Wf :=
  Box3.wf_foldl ps .empty trivial

theorem Box3.getSize_nonneg {b : Box3} (h : b.Wf) :
    0 ≤ b.getSize.x ∧ 0 ≤ b.getSize.y ∧ 0 ≤ b.getSize.z := by
  cases b with
  | empty => norm_num [Box3.getSize]
  | box mn mx =>
      obtain ⟨h1, h2, h3⟩ := h
      exact ⟨sub_nonneg.mpr h1, sub_nonneg.mpr h2, sub_nonneg.mpr h3⟩

/-- The largest bounding-box dimension of any object graph is nonnegative. -/
theorem maxDim_nonneg (o : Object3D) :
    0 ≤ max (Box3.setFromObject o).getSize.x
          (max (Box3.setFromObject o).getSize.y (Box3.setFromObject o).getSize.z) :=
  le_trans (Box3.getSize_nonneg (Box3.wf_setFromPoints o.worldPoints)).1 (le_max_left _ _)

/-- Translation of a box by a vector. -/
noncomputable def Box3.translate (v : Vec3) : Box3 → Box3
  | .empty => .empty
  | .box mn mx => .box (mn + v) (mx + v)

theorem Box3.expandByPoint_translate (b : Box3) (p v : Vec3) :
    (b.translate v).expandByPoint (p + v) = (b.expandByPoint p).translate v := by
  cases b with
  | empty => rfl
  | box mn mx =>
      simp [Box3.translate, Box3.expandByPoint, Vec3.add_def,
        min_add_add_right, max_add_add_right]

theorem Box3.foldl_expandByPoint_translate (ps : List Vec3) (v : Vec3) :
    ∀ b : Box3,
      (ps.map (fun p => p + v)).foldl Box3.expandByPoint (b.translate v)
        = (ps.foldl Box3.expandByPoint b).translate v := by
  induction ps with
  | nil => exact fun b => rfl
  | cons p ps ih =>
      intro b
      simp only [List.map_cons, List.foldl_cons, Box3.expandByPoint_translate]
      exact ih _

theorem Box3.setFromPoints_translate (ps : List Vec3) (v : Vec3) :
    Box3.setFromPoints (ps.map (fun p => p + v)) = (Box3.setFromPoints ps).translate v := by
  have h := Box3.foldl_expandByPoint_translate ps v .empty
  simpa [Box3.setFromPoints, Box3.translate] using h

/-- The world box of an object is the translate of the box of its mesh points
by the root position. -/
theorem Box3.setFromObject_eq_translate (o : Object3D) :
    Box3.setFromObject o = (Box3.setFromPoints o.meshPoints).translate o.position := by
  rw [Box3.setFromObject, Object3D.worldPoints, Box3.setFromPoints_translate]

/-- The object returned by the fit routine is the input object with its root
position overwritten by minus the world bounding-box centre. -/
theorem fitOBJ_fst (obj : Object3D) (camera : Camera) :
    (fitOBJ obj camera).1 =
      { obj with position := ⟨-(Box3.setFromObject obj).getCenter.x,
                              -(Box3.setFromObject obj).getCenter.y,
                              -(Box3.setFromObject obj).getCenter.z⟩ } := by
  by_cases hc : camera.isPerspective <;> simp [fitOBJ, hc]

/-- The camera the Canvas of the viewer creates: position [0,0,10], fov 45,
near 0.1, far 1000 (aspect taken as 1). -/
noncomputable def defaultCamera : Camera :=
  { position := ⟨0, 0, 10⟩, isPerspective := true, fov := 45, aspect := 1,
    near := 0.1, far := 1000, projectionMatrix := perspectiveProjectionOf 45 1 0.1 1000 }

/-- A loaded object graph whose root sits at the origin, with one mesh. -/
noncomputable def centeredObject : Object3D :=
  { position := ⟨0, 0, 0⟩,
    meshes := [{ points := [⟨2, 2, 2⟩, ⟨4, 6, 8⟩], hasSkeleton := false,
                 material := .meshStandardMaterial 0xcccccc (1/2) (1/2) }] }

/-- An object graph whose root position is nonzero before the fit. -/
noncomputable def offsetObject : Object3D :=
  { position := ⟨1, 0, 0⟩,
    meshes := [{ points := [⟨0, 0, 0⟩], hasSkeleton := false,
                 material := .meshStandardMaterial 0xcccccc (1/2) (1/2) }] }

/-- C1: after a model load with a perspective camera whose fov (in degrees)
lies in the valid range (0, 180), the computed camera distance equals
`maxDim / sin(fov/2) * 1.5`, where `maxDim` is the largest bounding-box
dimension and `fov` is the field of view converted to radians: the
`Math.abs` in the code is the identity there. -/
theorem fitOBJ_camera_distance (obj : Object3D) (camera : Camera)
    (hp : camera.isPerspective = true)
    (h0 : 0 < camera.fov) (h180 : camera.fov < 180) :
    (fitOBJ obj camera).2.position.z =
      (let size := (Box3.setFromObject obj).getSize
       let maxDim := max size.x (max size.y size.z)
       maxDim / Real.sin (camera.fov * (Real.pi / 180) / 2) * 1.5) := by
  have hpi := Real.pi_pos
  have hθ0 : 0 < camera.fov * (Real.pi / 180) / 2 := by positivity
  have hθπ : camera.fov * (Real.pi / 180) / 2 < Real.pi := by nlinarith
  have hsin : 0 < Real.sin (camera.fov * (Real.pi / 180) / 2) :=
    Real.sin_pos_of_pos_of_lt_pi hθ0 hθπ
  have habs : |max (Box3.setFromObject obj).getSize.x
      (max (Box3.setFromObject obj).getSize.y (Box3.setFromObject obj).getSize.z) /
        Real.sin (camera.fov * (Real.pi / 180) / 2)|
      = max (Box3.setFromObject obj).getSize.x
          (max (Box3.setFromObject obj).getSize.y (Box3.setFromObject obj).getSize.z) /
            Real.sin (camera.fov * (Real.pi / 180) / 2) :=
    abs_of_nonneg (div_nonneg (maxDim_nonneg obj) hsin.le)
  simp [fitOBJ, hp, Camera.updateProjectionMatrix, habs]

/-- C1 witness: the theorem instantiated at a concrete object and the
default camera of the viewer. -/
theorem fitOBJ_camera_distance_witness :
    defaultCamera.isPerspective = true ∧ (0:ℝ) < 45 ∧ (45:ℝ) < 180 ∧
    (fitOBJ centeredObject defaultCamera).2.position.z =
      (let size := (Box3.setFromObject centeredObject).getSize
       let maxDim := max size.x (max size.y size.z)
       maxDim / Real.sin (defaultCamera.fov * (Real.pi / 180) / 2) * 1.5) :=
  ⟨rfl, by norm_num, by norm_num,
   fitOBJ_camera_distance centeredObject defaultCamera rfl
     (by norm_num [defaultCamera]) (by norm_num [defaultCamera])⟩

/-- C2: the OBJ, FBX and GLTF/GLB load paths run the same auto-fit
computation: on equal object and camera inputs they produce the same object
translation and the same camera state. -/
theorem fit_paths_identical (o : Object3D) (c : Camera) :
    fitOBJ o c = fitFBX o c ∧ fitOBJ o c = fitGLTF o c :=
  ⟨rfl, rfl⟩

/-- C3 counterexample: for an object whose root position is (1,0,0) with a
single geometry point at the local origin, the fit routine leaves the world
bounding-box centre at (−1,0,0), not at the origin: the code assigns
`position := −center` instead of subtracting the centre from the position. -/
theorem fitOBJ_offset_not_centered :
    Box3.getCenter (Box3.setFromObject (fitOBJ offsetObject defaultCamera).1)
      ≠ (⟨0, 0, 0⟩ : Vec3) := by
  have hx : (Box3.getCenter (Box3.setFromObject (fitOBJ offsetObject defaultCamera).1)).x
      = -1 := by
    rw [fitOBJ_fst]
    norm_num [offsetObject, Box3.setFromObject, Object3D.worldPoints, Object3D.meshPoints,
      Box3.setFromPoints, Box3.expandByPoint, Box3.getCenter, Vec3.add_def, List.flatMap]
  intro h
  rw [h] at hx
  norm_num at hx

/-- Translating by the zero vector leaves a box unchanged. -/
theorem Box3.translate_zero (b : Box3) : Box3.translate ⟨0, 0, 0⟩ b = b := by
  cases b with
  | empty => rfl
  | box mn mx => simp [Box3.translate, Vec3.add_def]

/-- Translating a box by minus its own centre puts the centre at the origin. -/
theorem Box3.getCenter_translate_neg_center (b : Box3) :
    Box3.getCenter (Box3.translate
      ⟨-b.getCenter.x, -b.getCenter.y, -b.getCenter.z⟩ b) = (⟨0, 0, 0⟩ : Vec3) := by
  cases b with
  | empty => simp [Box3.translate, Box3.getCenter]
  | box mn mx =>
      simp only [Box3.translate, Box3.getCenter, Vec3.add_def, Vec3.mk.injEq]
      refine ⟨by ring, by ring, by ring⟩

/-- C3 amended: for every loaded object graph whose root position is zero
before the fit (as for every freshly loaded model), the fit routine moves the
object so that its world bounding-box centre is the origin.  (The code
assigns `position := −center` rather than subtracting, so an object whose
root position was p ≠ 0 instead ends with its box centre at −p.) -/
theorem fitOBJ_centers_origin (obj : Object3D) (camera : Camera)
    (h : obj.position = ⟨0, 0, 0⟩) :
    Box3.getCenter (Box3.setFromObject (fitOBJ obj camera).1) = (⟨0, 0, 0⟩ : Vec3) := by
  rw [fitOBJ_fst, Box3.setFromObject_eq_translate]
  show Box3.getCenter (Box3.translate
      ⟨-(Box3.setFromObject obj).getCenter.x, -(Box3.setFromObject obj).getCenter.y,
       -(Box3.setFromObject obj).getCenter.z⟩ (Box3.setFromPoints obj.meshPoints)) = ⟨0, 0, 0⟩
  have hobj : Box3.setFromPoints obj.meshPoints = Box3.setFromObject obj := by
    rw [Box3.setFromObject_eq_translate, h, Box3.translate_zero]
  rw [hobj]
  exact Box3.getCenter_translate_neg_center (Box3.setFromObject obj)

/-- C3 witness: the amended theorem instantiated at a concrete origin-rooted
object. -/
theorem fitOBJ_centers_origin_witness :
    centeredObject.position = (⟨0, 0, 0⟩ : Vec3) ∧
    Box3.getCenter (Box3.setFromObject (fitOBJ centeredObject defaultCamera).1)
      = (⟨0, 0, 0⟩ : Vec3) :=
  ⟨rfl, fitOBJ_centers_origin centeredObject defaultCamera rfl⟩

/-- The camera of the viewer after the user has orbited/panned it off the z axis. -/
noncomputable def orbitedCamera : Camera :=
  { position := ⟨1, 2, 10⟩, isPerspective := true, fov := 45, aspect := 1,
    near := 0.1, far := 1000, projectionMatrix := perspectiveProjectionOf 45 1 0.1 1000 }

/-- C4 counterexample: a load that happens after the camera was orbited to
x = 1 leaves the camera x coordinate at 1, so the camera does not end at
(0, 0, d): the fit assigns only `position.z`. -/
theorem fitOBJ_orbited_camera_off_axis :
    (fitOBJ centeredObject orbitedCamera).2.position.x ≠ 0 := by
  have h : (fitOBJ centeredObject orbitedCamera).2.position.x = 1 := by
    simp [fitOBJ, orbitedCamera, Camera.updateProjectionMatrix]
  rw [h]
  norm_num

/-- C4 amended: the fit assigns `position.z := d` and leaves `position.x`
and `position.y` at their prior values, so the camera ends at (0, 0, d)
exactly for loads where it was already on the z axis (as with the initial
camera placed at (0, 0, 10)). -/
theorem fitOBJ_camera_position (obj : Object3D) (camera : Camera)
    (hp : camera.isPerspective = true) :
    (fitOBJ obj camera).2.position.z =
      (let size := (Box3.setFromObject obj).getSize
       let maxDim := max size.x (max size.y size.z)
       |maxDim / Real.sin (camera.fov * (Real.pi / 180) / 2)| * 1.5)
    ∧ (fitOBJ obj camera).2.position.x = camera.position.x
    ∧ (fitOBJ obj camera).2.position.y = camera.position.y := by
  refine ⟨?_, ?_, ?_⟩ <;> simp [fitOBJ, hp, Camera.updateProjectionMatrix]

/-- C4 witness: the amended theorem instantiated at the initial camera,
which sits on the z axis. -/
theorem fitOBJ_camera_position_witness :
    defaultCamera.isPerspective = true ∧
    ((fitOBJ centeredObject defaultCamera).2.position.z =
      (let size := (Box3.setFromObject centeredObject).getSize
       let maxDim := max size.x (max size.y size.z)
       |maxDim / Real.sin (defaultCamera.fov * (Real.pi / 180) / 2)| * 1.5)
    ∧ (fitOBJ centeredObject defaultCamera).2.position.x = defaultCamera.position.x
    ∧ (fitOBJ centeredObject defaultCamera).2.position.y = defaultCamera.position.y) :=
  ⟨rfl, fitOBJ_camera_position centeredObject defaultCamera rfl⟩

/-- C5: after a load with a perspective camera, the near plane is 0.1, the
far plane is d·10 for the computed distance d, and the projection matrix has
been recomputed from the fov and aspect and the new near/far
planes. -/
theorem fitOBJ_near_far_projection (obj : Object3D) (camera : Camera)
    (hp : camera.isPerspective = true) :
    (let size := (Box3.setFromObject obj).getSize
     let maxDim := max size.x (max size.y size.z)
     let d := |maxDim / Real.sin (camera.fov * (Real.pi / 180) / 2)| * 1.5
     (fitOBJ obj camera).2.near = 0.1
     ∧ (fitOBJ obj camera).2.far = d * 10
     ∧ (fitOBJ obj camera).2.projectionMatrix
         = perspectiveProjectionOf camera.fov camera.aspect 0.1 (d * 10)) := by
  refine ⟨?_, ?_, ?_⟩ <;> simp [fitOBJ, hp, Camera.updateProjectionMatrix]

/-- C5 witness: the theorem instantiated at a concrete object and the
default camera of the viewer. -/
theorem fitOBJ_near_far_projection_witness :
    defaultCamera.isPerspective = true ∧
    (let size := (Box3.setFromObject centeredObject).getSize
     let maxDim := max size.x (max size.y size.z)
     let d := |maxDim / Real.sin (defaultCamera.fov * (Real.pi / 180) / 2)| * 1.5
     (fitOBJ centeredObject defaultCamera).2.near = 0.1
     ∧ (fitOBJ centeredObject defaultCamera).2.far = d * 10
     ∧ (fitOBJ centeredObject defaultCamera).2.projectionMatrix
         = perspectiveProjectionOf defaultCamera.fov defaultCamera.aspect 0.1 (d * 10)) :=
  ⟨rfl, fitOBJ_near_far_projection centeredObject defaultCamera rfl⟩

/-- C10: the fit touches only the camera position.z, near, far and
projection matrix: position.x, position.y, fov, aspect (and the camera kind)
are unchanged. -/
theorem fitOBJ_frame_effect (obj : Object3D) (camera : Camera)
    (hp : camera.isPerspective = true) :
    (fitOBJ obj camera).2.position.x = camera.position.x
    ∧ (fitOBJ obj camera).2.position.y = camera.position.y
    ∧ (fitOBJ obj camera).2.fov = camera.fov
    ∧ (fitOBJ obj camera).2.aspect = camera.aspect
    ∧ (fitOBJ obj camera).2.isPerspective = camera.isPerspective := by
  refine ⟨?_, ?_, ?_, ?_, ?_⟩ <;> simp [fitOBJ, hp, Camera.updateProjectionMatrix]

/-- C10 witness: the theorem instantiated at a concrete object and the
default camera of the viewer. -/
theorem fitOBJ_frame_effect_witness :
    defaultCamera.isPerspective = true ∧
    ((fitOBJ centeredObject defaultCamera).2.position.x = defaultCamera.position.x
    ∧ (fitOBJ centeredObject defaultCamera).2.position.y = defaultCamera.position.y
    ∧ (fitOBJ centeredObject defaultCamera).2.fov = defaultCamera.fov
    ∧ (fitOBJ centeredObject defaultCamera).2.aspect = defaultCamera.aspect
    ∧ (fitOBJ centeredObject defaultCamera).2.isPerspective = defaultCamera.isPerspective) :=
  ⟨rfl, fitOBJ_frame_effect centeredObject defaultCamera rfl⟩

/-- The four supported model types. -/
inductive ModelType where
  | gltf : ModelType
  | glb : ModelType
  | obj : ModelType
  | fbx : ModelType
deriving DecidableEq

/-- JavaScript `String.prototype.toLowerCase` as it acts on ASCII (the only
characters that can yield one of the four extensions): lower-case the
letters A–Z.  (the builtin lower-casing of strings is not reducible by the kernel,
so the lowering is spelled out structurally.) -/
def lowerChar (c : Char) : Char :=
  if 'A' ≤ c ∧ c ≤ 'Z' then Char.ofNat (c.toNat + 32) else c

/-- Lower-casing of a whole string, character by character. -/
def lowerString (s : String) : String :=
  String.mk (s.data.map lowerChar)

/-- `getModelType` (`ModelViewer.tsx` lines 293–307): take the last
dot-separated segment of the filename, lower-case it, and dispatch on it;
`none` models the thrown `Unsupported file type` error. -/
def getModelType (filename : String) : Option ModelType :=
  let extension := ((filename.splitOn ".").getLast?).map (fun s => lowerString s)
  if extension = some "obj" then some ModelType.obj
  else if extension = some "fbx" then some ModelType.fbx
  else if extension = some "gltf" then some ModelType.gltf
  else if extension = some "glb" then some ModelType.glb
  else none

/-- C6: the loader is picked by file extension: `getModelType` returns each
of the four types exactly when the final dot-separated segment of the filename,
compared case-insensitively, is that extension, and reports an unsupported
file type (modelled as `none`) for every other filename. -/
theorem getModelType_by_extension (fn : String) :
    (getModelType fn = some ModelType.obj ↔ lowerString ((fn.splitOn ".").getLastD "") = "obj")
    ∧ (getModelType fn = some ModelType.fbx ↔ lowerString ((fn.splitOn ".").getLastD "") = "fbx")
    ∧ (getModelType fn = some ModelType.gltf ↔ lowerString ((fn.splitOn ".").getLastD "") = "gltf")
    ∧ (getModelType fn = some ModelType.glb ↔ lowerString ((fn.splitOn ".").getLastD "") = "glb")
    ∧ (getModelType fn = none ↔
        lowerString ((fn.splitOn ".").getLastD "") ∉ (["obj", "fbx", "gltf", "glb"] : List String)) := by
  have hD : (fn.splitOn ".").getLastD "" = ((fn.splitOn ".").getLast?).getD "" :=
    List.getLastD_eq_getLast? "" (fn.splitOn ".")
  rcases hseg : (fn.splitOn ".").getLast? with _ | s
  · rw [hD, hseg]
    simp only [getModelType, hseg, Option.map_none', Option.getD_none]
    refine ⟨?_, ?_, ?_, ?_, ?_⟩ <;> simp <;> decide
  · rw [hD, hseg]
    simp only [getModelType, hseg, Option.map_some', Option.getD_some]
    by_cases h1 : lowerString s = "obj" <;> by_cases h2 : lowerString s = "fbx" <;>
      by_cases h3 : lowerString s = "gltf" <;> by_cases h4 : lowerString s = "glb" <;>
      simp_all

/-- The lighting-related elements rendered inside the Canvas: the preset of
an `Environment` element if one is rendered, and the environment of a
`Stage` wrapper if one is rendered. -/
structure CanvasScene where
  envPreset : Option String
  stageEnvironment : Option String

/-- What the OBJModel component contributes to the scene: no Environment. -/
def OBJModelScene : CanvasScene := { envPreset := none, stageEnvironment := none }

/-- What the FBXModel component contributes to the scene: no Environment. -/
def FBXModelScene : CanvasScene := { envPreset := none, stageEnvironment := none }

/-- What the GLTFModel component renders (`ModelViewer.tsx` lines 269–275):
an `Environment` with the given preset, defaulting to city. -/
def GLTFModelScene (environmentPreset : Option String) : CanvasScene :=
  { envPreset := some (environmentPreset.getD "city"), stageEnvironment := none }

/-- The ModelLoader dispatch (`ModelViewer.tsx` lines 278–290). -/
def ModelLoaderScene (type : ModelType) (environmentPreset : Option String) : CanvasScene :=
  match type with
  | ModelType.obj => OBJModelScene
  | ModelType.fbx => FBXModelScene
  | ModelType.gltf => GLTFModelScene environmentPreset
  | ModelType.glb => GLTFModelScene environmentPreset

/-- The widgets and scene the ModelViewer component renders. -/
structure ViewerView where
  canvasScene : Option CanvasScene
  bonesCheckbox : Bool
  presetSelector : Bool

/-- The conditional rendering of the ModelViewer component
(`ModelViewer.tsx` lines 424–558): with a loaded model, GLB/GLTF get the
ModelLoader with the chosen preset, other types get it inside a
`Stage environment="city"`; the bones checkbox shows for FBX and the
environment-preset selector for GLB/GLTF. -/
def ModelViewerView (url : Option String) (type : Option ModelType)
    (environmentPreset : String) : ViewerView :=
  match url, type with
  | some _, some t =>
      { canvasScene := some (
          if t = ModelType.glb ∨ t = ModelType.gltf then
            ModelLoaderScene t (some environmentPreset)
          else
            { ModelLoaderScene t none with stageEnvironment := some "city" }),
        bonesCheckbox := decide (t = ModelType.fbx),
        presetSelector := decide (t = ModelType.glb ∨ t = ModelType.gltf) }
  | _, _ => { canvasScene := none, bonesCheckbox := false, presetSelector := false }

/-- C7: with a loaded model, the environment-preset selector is rendered and
the chosen Environment preset is applied exactly when the model type is glb
or gltf, and for obj and fbx no Environment element with a chosen preset is
rendered at all. -/
theorem environment_preset_gltf_only (u : String) (t : ModelType) (p : String) :
    ((ModelViewerView (some u) (some t) p).presetSelector = true
        ↔ (t = ModelType.glb ∨ t = ModelType.gltf))
    ∧ ((ModelViewerView (some u) (some t) p).canvasScene.map (fun s => s.envPreset)
          = some (some p)
        ↔ (t = ModelType.glb ∨ t = ModelType.gltf))
    ∧ ((ModelViewerView (some u) (some t) p).canvasScene.map (fun s => s.envPreset)
          = some none
        ↔ (t = ModelType.obj ∨ t = ModelType.fbx)) := by
  cases t <;>
    simp [ModelViewerView, ModelLoaderScene, GLTFModelScene, OBJModelScene, FBXModelScene]

/-- The skeleton-overlay effect of FBXModel (`ModelViewer.tsx` lines
190–227): any existing helper is removed first; when showBones is on and a
traverse finds a mesh with a skeleton, a new SkeletonHelper is added.  The
result is whether a helper is in the scene after the effect. -/
def fbxBonesEffect (fbx : Object3D) (showBones : Bool) : Bool :=
  if showBones then
    let hasBones := fbx.meshes.any (fun m => m.hasSkeleton)
    hasBones
  else false

/-- Whether the scene contains a SkeletonHelper, as a function of the viewer
state: the FBXModel (whose effect manages the helper) is mounted exactly
when a model is loaded with type fbx, and its unmount cleanup removes the
helper otherwise. -/
def sceneSkeletonHelper (url : Option String) (type : Option ModelType)
    (model : Object3D) (showBones : Bool) : Bool :=
  match url, type with
  | some _, some ModelType.fbx => fbxBonesEffect model showBones
  | _, _ => false

/-- C8: a SkeletonHelper is in the scene iff a model is loaded, its type is
fbx, the showBones toggle is on and some mesh of the model has a skeleton;
turning showBones off always removes the helper. -/
theorem skeleton_helper_invariant (url : Option String) (type : Option ModelType)
    (model : Object3D) (showBones : Bool) :
    (sceneSkeletonHelper url type model showBones = true ↔
        (url.isSome = true ∧ type = some ModelType.fbx ∧ showBones = true
          ∧ model.meshes.any (fun m => m.hasSkeleton) = true))
    ∧ sceneSkeletonHelper url type model false = false := by
  constructor
  · rcases url with _ | u <;> rcases type with _ | t
    · simp [sceneSkeletonHelper]
    · cases t <;> simp [sceneSkeletonHelper]
    · simp [sceneSkeletonHelper]
    · cases t <;> cases showBones <;> simp [sceneSkeletonHelper, fbxBonesEffect]
  · rcases url with _ | u <;> rcases type with _ | t
    · rfl
    · cases t <;> rfl
    · rfl
    · cases t <;> simp [sceneSkeletonHelper, fbxBonesEffect]

/-- A loaded MTL materials object (its contents are opaque to the viewer). -/
structure MtlMaterials where
  sourceUrl : String
deriving DecidableEq

/-- Outcome of an MTLLoader.load attempt. -/
inductive MtlLoadResult where
  | success (materials : MtlMaterials) : MtlLoadResult
  | failure : MtlLoadResult

/-- Outcome of the HEAD fetch probing for a sidecar MTL file. -/
inductive FetchResult where
  | ok : FetchResult
  | notOk : FetchResult
  | networkError : FetchResult

/-- The test on line 118 of `ModelViewer.tsx`: the sidecar probe only runs
for URLs that start with http or /. -/
def urlIsRemote (url : String) : Bool :=
  url.startsWith "http" || url.startsWith "/"

/-- Which materials are set on the OBJLoader by the time `loadObj` runs
(`ModelViewer.tsx` lines 33–49 and 109–137): with an explicit mtlUrl,
`loadWithMaterial` sets them only if the MTL load succeeds; without one, a
remote URL is probed with a HEAD fetch and only a successful probe followed
by a successful MTL load sets them; local URLs load the OBJ directly. -/
def objLoaderMaterials (mtlUrl : Option String) (remote : Bool)
    (fetch : FetchResult) (mtl : MtlLoadResult) : Option MtlMaterials :=
  match mtlUrl with
  | some _ =>
      match mtl with
      | MtlLoadResult.success m => some m
      | MtlLoadResult.failure => none
  | none =>
      if remote then
        match fetch with
        | FetchResult.ok =>
            match mtl with
            | MtlLoadResult.success m => some m
            | MtlLoadResult.failure => none
        | FetchResult.notOk => none
        | FetchResult.networkError => none
      else none

/-- The fallback material of `loadObj` (`ModelViewer.tsx` lines 60–64). -/
def defaultMaterial : Material :=
  Material.meshStandardMaterial 0xcccccc (1/2) (1/2)

/-- The `loadObj` callback body before the camera fit (`ModelViewer.tsx`
lines 52–67): when no materials were set on the loader, every mesh of the
parsed object gets the default MeshStandardMaterial. -/
def loadObjWith (materials : Option MtlMaterials) (obj : Object3D) : Object3D :=
  match materials with
  | none => { obj with meshes := obj.meshes.map (fun m => { m with material := defaultMaterial }) }
  | some _ => obj

/-- The whole OBJ load flow: resolve materials, then load the OBJ.  It
always produces a loaded object: no MTL outcome aborts the OBJ load. -/
def objModelLoad (url : String) (mtlUrl : Option String) (fetch : FetchResult)
    (mtl : MtlLoadResult) (parsedObj : Object3D) : Object3D :=
  loadObjWith (objLoaderMaterials mtlUrl (urlIsRemote url) fetch mtl) parsedObj

/-- C9: a failed MTL load never sets materials on the loader, and whenever no
materials were set — MTL load failed, no sidecar found, or a local URL — the
OBJ is still loaded with all its meshes, each given the default
MeshStandardMaterial (color 0xcccccc, roughness 0.5, metalness 0.5). -/
theorem obj_load_survives_mtl_failure (url : String) (mtlUrl : Option String)
    (fetch : FetchResult) (mtl : MtlLoadResult) (parsedObj : Object3D)
    (h : objLoaderMaterials mtlUrl (urlIsRemote url) fetch mtl = none) :
    objLoaderMaterials mtlUrl (urlIsRemote url) fetch MtlLoadResult.failure = none
    ∧ (objModelLoad url mtlUrl fetch mtl parsedObj).meshes.length
        = parsedObj.meshes.length
    ∧ (objModelLoad url mtlUrl fetch mtl parsedObj).meshes.all
        (fun m => m.material == defaultMaterial) = true := by
  refine ⟨?_, ?_, ?_⟩
  · rcases mtlUrl with _ | mu
    · by_cases hr : urlIsRemote url = true <;> cases fetch <;>
        simp [objLoaderMaterials, hr]
    · rfl
  · simp [objModelLoad, h, loadObjWith]
  · simp [objModelLoad, h, loadObjWith, List.all_eq_true]

/-- A parsed OBJ object whose mesh still carries a stale material. -/
noncomputable def parsedObjW : Object3D :=
  { position := ⟨0, 0, 0⟩,
    meshes := [{ points := [], hasSkeleton := false,
                 material := Material.fromMtlLibrary "old" }] }

/-- C9 witness: the theorem instantiated at a load with an explicit mtlUrl
whose MTL load fails. -/
theorem obj_load_survives_mtl_failure_witness :
    objLoaderMaterials (some "model.mtl") (urlIsRemote "blob:model")
        FetchResult.ok MtlLoadResult.failure = none
    ∧ (objLoaderMaterials (some "model.mtl") (urlIsRemote "blob:model")
          FetchResult.ok MtlLoadResult.failure = none
        ∧ (objModelLoad "blob:model" (some "model.mtl") FetchResult.ok
              MtlLoadResult.failure parsedObjW).meshes.length
            = parsedObjW.meshes.length
        ∧ (objModelLoad "blob:model" (some "model.mtl") FetchResult.ok
              MtlLoadResult.failure parsedObjW).meshes.all
            (fun m => m.material == defaultMaterial) = true) :=
  ⟨rfl, obj_load_survives_mtl_failure "blob:model" (some "model.mtl")
    FetchResult.ok MtlLoadResult.failure parsedObjW rfl⟩
